import Mathlib

/-!
Verification of the LangGraph summarization pipeline of the ytsbyai backend
(`backend/app/langgraph/{types,nodes,workflow,neo4j_service}.py` plus the
Pinecone storage helpers it calls).

The embedding below translates the Python source into Lean:
* Python strings handled character-wise by the output parsers are `List Char`
  (`Str`); Python `str.find` / `str.rfind` / slicing / `strip` are modelled by
  `pyFind`, `pyRfind`, `pySlice`, `pyStrip` with Python's exact conventions
  (`-1` for "not found", negative slice indices counting from the end, clamping).
* `json.loads` is an external library call; it is a parameter
  `jl : Str → Option JsonVal` of every parser (`none` models a raised
  exception, `some v` a successfully decoded JSON value).
* External collaborators (tiktoken encoder, the LLM, the embedding service,
  Pinecone, Neo4j, wall clocks, md5) are oracle fields of `Oracles`; a
  `Except.error e` outcome models the Python call raising an exception whose
  `str(e)` is `e`.
* Pydantic field types are treated as enforced: a JSON value of a type other
  than the declared one surfaces as a step exception in the model (real
  pydantic v1 would let the ill-typed value through unvalidated; no claim
  distinguishes the two behaviours, and all counterexamples below use
  well-typed values only).
-/

namespace YtsByAI

/-- Character-list strings, the representation used for the output parsers. -/
abbrev Str := List Char

/-- Convert a Lean string literal to the char-list representation. -/
def toStr (s : String) : Str := s.toList

/-- First index at which `needle` occurs in `hay` (Python `str.find` without
the `-1` convention). -/
def findSub : Str → Str → Option Nat
  | [], needle => if needle.isEmpty then some 0 else none
  | c :: rest, needle =>
    if needle.isPrefixOf (c :: rest) then some 0
    else (findSub rest needle).map (· + 1)

/-- Last index at which `needle` occurs in `hay` (Python `str.rfind` without
the `-1` convention). -/
def rfindSub : Str → Str → Option Nat
  | [], needle => if needle.isEmpty then some 0 else none
  | c :: rest, needle =>
    match rfindSub rest needle with
    | some i => some (i + 1)
    | none => if needle.isPrefixOf (c :: rest) then some 0 else none

/-- Python `needle in hay` substring test. -/
def containsSub (hay needle : Str) : Bool := (findSub hay needle).isSome

/-- Python `hay.find(needle)`: first index or `-1`. -/
def pyFind (hay needle : Str) : Int :=
  match findSub hay needle with
  | some i => (i : Int)
  | none => -1

/-- Python `hay.find(needle, start)`: first index at or after `start`, or `-1`. -/
def pyFindFrom (hay needle : Str) (start : Nat) : Int :=
  match findSub (hay.drop start) needle with
  | some i => ((i + start : Nat) : Int)
  | none => -1

/-- Python `hay.rfind(needle)`: last index or `-1`. -/
def pyRfind (hay needle : Str) : Int :=
  match rfindSub hay needle with
  | some i => (i : Int)
  | none => -1

/-- Resolve a Python slice endpoint: negative indices count from the end
(clamped at 0), positive ones are clamped at the length. -/
def pyIdx (n : Nat) (i : Int) : Nat :=
  if i < 0 then ((n : Int) + i).toNat else min i.toNat n

/-- Python `s[a:b]` (step 1). -/
def pySlice (s : Str) (a b : Int) : Str :=
  (s.take (pyIdx s.length b)).drop (pyIdx s.length a)

/-- Python `s.strip()`: remove leading and trailing whitespace. -/
def pyStrip (s : Str) : Str :=
  ((s.dropWhile Char.isWhitespace).reverse.dropWhile Char.isWhitespace).reverse

/-- JSON values as produced by `json.loads`. -/
inductive JsonVal where
  | str : Str → JsonVal
  | num : ℚ → JsonVal
  | bool : Bool → JsonVal
  | null : JsonVal
  | arr : List JsonVal → JsonVal
  | obj : List (Str × JsonVal) → JsonVal

/-- Python `dict.get(k)` on a decoded JSON object (decoded objects have
unique keys, so first-match lookup is adequate). -/
def dictGet (kvs : List (Str × JsonVal)) (k : Str) : Option JsonVal :=
  (kvs.find? (·.1 == k)).map (·.2)

/-- The fixed marker `"```json"` searched for by both output parsers. -/
def fenceJson : Str := toStr "```json"

/-- The fence terminator `"```"`. -/
def fence3 : Str := toStr "```"

/-- A single opening brace, written with an escape per Python's `"{"`. -/
def obrace : Str := toStr "\x7b"

/-- A single closing brace, written with an escape per Python's `"}"`. -/
def cbrace : Str := toStr "\x7d"

/-- The string handed to `json.loads` in the fenced branch:
`text[text.find("```json")+7 : text.find("```", start)].strip()`. -/
def fencedBlockContents (text : Str) : Str :=
  let jsonStart := (findSub text fenceJson).getD 0 + 7
  let jsonEnd := pyFindFrom text fence3 jsonStart
  pyStrip (pySlice text (jsonStart : Int) jsonEnd)

/-- The string handed to `json.loads` in the brace branch:
`text[text.find("{") : text.rfind("}") + 1]`. -/
def braceSpan (text : Str) : Str :=
  pySlice text (pyFind text obrace) (pyRfind text cbrace + 1)

/-- The fallback object of `SummaryOutputParser`: raw text in `summary`,
fixed defaults elsewhere. -/
def summaryDefault (text : Str) : JsonVal :=
  .obj [ (toStr "summary", .str text),
         (toStr "title", .str (toStr "Video Summary")),
         (toStr "tone", .str (toStr "professional")),
         (toStr "key_points", .arr []),
         (toStr "tags", .arr []) ]

/-- The fallback object of `ClassificationOutputParser`: fixed defaults only,
the raw text appears nowhere. -/
def classificationDefault : JsonVal :=
  .obj [ (toStr "topic", .str (toStr "General")),
         (toStr "category", .str (toStr "Education")),
         (toStr "confidence", .num (1/2)),
         (toStr "subcategories", .arr []),
         (toStr "tags", .arr []) ]

namespace SummaryOutputParser

/-- `SummaryOutputParser.parse` (nodes.py lines 27-55). `jl` is `json.loads`;
`(jl s).getD d` realises "return `json.loads(s)`, falling back to the default
object when it raises". -/
def parse (jl : Str → Option JsonVal) (text : Str) : JsonVal :=
  if containsSub text fenceJson then
    (jl (fencedBlockContents text)).getD (summaryDefault text)
  else if containsSub text obrace && containsSub text cbrace then
    (jl (braceSpan text)).getD (summaryDefault text)
  else
    summaryDefault text

end SummaryOutputParser

namespace ClassificationOutputParser

/-- `ClassificationOutputParser.parse` (nodes.py lines 60-88). Same branch
structure as the summary parser, but both the no-brace branch and the
exception handler return `classificationDefault`, which does not mention the
raw text. -/
def parse (jl : Str → Option JsonVal) (text : Str) : JsonVal :=
  if containsSub text fenceJson then
    (jl (fencedBlockContents text)).getD (classificationDefault)
  else if containsSub text obrace && containsSub text cbrace then
    (jl (braceSpan text)).getD (classificationDefault)
  else
    classificationDefault

end ClassificationOutputParser

/-- Does a (top-level) field of a JSON object hold exactly the string `s`? -/
def objHasStrField (v : JsonVal) (s : Str) : Bool :=
  match v with
  | .obj kvs => kvs.any (fun kv => match kv.2 with | .str t => t == s | _ => false)
  | _ => false

section ParserLemmas

variable (jl : Str → Option JsonVal) (text : Str)

theorem summaryParse_fenced (h : containsSub text fenceJson = true) :
    SummaryOutputParser.parse jl text
      = (jl (fencedBlockContents text)).getD (summaryDefault text) := by
  simp [SummaryOutputParser.parse, h]

theorem summaryParse_braces (h1 : containsSub text fenceJson = false)
    (h2 : (containsSub text obrace && containsSub text cbrace) = true) :
    SummaryOutputParser.parse jl text
      = (jl (braceSpan text)).getD (summaryDefault text) := by
  simp [SummaryOutputParser.parse, h1, h2]

theorem summaryParse_fallback (h1 : containsSub text fenceJson = false)
    (h2 : (containsSub text obrace && containsSub text cbrace) = false) :
    SummaryOutputParser.parse jl text = summaryDefault text := by
  simp [SummaryOutputParser.parse, h1, h2]

theorem classificationParse_fenced (h : containsSub text fenceJson = true) :
    ClassificationOutputParser.parse jl text
      = (jl (fencedBlockContents text)).getD classificationDefault := by
  simp [ClassificationOutputParser.parse, h]

theorem classificationParse_braces (h1 : containsSub text fenceJson = false)
    (h2 : (containsSub text obrace && containsSub text cbrace) = true) :
    ClassificationOutputParser.parse jl text
      = (jl (braceSpan text)).getD classificationDefault := by
  simp [ClassificationOutputParser.parse, h1, h2]

theorem classificationParse_fallback (h1 : containsSub text fenceJson = false)
    (h2 : (containsSub text obrace && containsSub text cbrace) = false) :
    ClassificationOutputParser.parse jl text = classificationDefault := by
  simp [ClassificationOutputParser.parse, h1, h2]

end ParserLemmas

/-- `WorkflowState` (types.py lines 5-37). `datetime` values are modelled as
abstract `Nat` timestamps, Python `float`s as `ℚ`. All optional fields start
as `None`; list fields start empty. -/
structure WorkflowState where
  youtube_url : Option String
  video_id : Option String
  transcript : Option String
  user_id : Option String
  summary : Option String
  title : Option String
  tone : Option String
  key_points : List String
  tags : List String
  topic : Option String
  category : Option String
  confidence : Option ℚ
  subcategories : List String
  pinecone_id : Option String
  neo4j_id : Option String
  created_at : Option Nat
  processing_time : Option Nat
  token_count : Option Nat
  error : Option String
  error_step : Option String
deriving DecidableEq, Repr

/-- Python `x or default` for an optional string: `None` and `""` are falsy. -/
def pyOrStr (o : Option String) (d : String) : String :=
  match o with
  | some s => if s = "" then d else s
  | none => d

/-- Python `x or default` for an optional number: `None` and `0.0` are falsy. -/
def pyOrQ (o : Option ℚ) (d : ℚ) : ℚ :=
  match o with
  | some q => if q = 0 then d else q
  | none => d

/-- Truthiness of the `error` channel as tested by the conditional edges
(`if not state.error`): `None` and the empty string are falsy. -/
def truthyStr (o : Option String) : Bool :=
  match o with
  | some s => !(s == "")
  | none => false

/-- Metadata attached to a Pinecone vector (`PineconeService._create_metadata`).
`video_title` and `tone` are the state's optional fields passed through
unchanged (they may be `None`). -/
structure VecMetadata where
  user_id : String
  video_id : String
  video_title : Option String
  tone : Option String
  tags : List String
  key_points : List String
  created_at : String
  transcript_length : Nat
  summary_length : Nat
deriving DecidableEq, Repr

/-- One upserted Pinecone vector. Embedding values are abstract integers
(their numeric content is irrelevant to every claim). -/
structure PineconeRecord where
  id : String
  values : List Int
  metadata : VecMetadata
deriving DecidableEq, Repr

/-- Properties `SET` on the `Video` node by the Cypher query. -/
structure VideoProps where
  title : String
  summary : String
  tone : String
  confidence : ℚ
  created_at : Nat
deriving DecidableEq, Repr

/-- The Neo4j graph contents touched by `Neo4jService.store_summary`.
`MERGE`-keyed node sets are lists of natural keys without duplicates;
`keyPoints` is a list of node texts in which each element is a distinct
`CREATE`d node (equal texts are still distinct nodes). Relationships are not
tracked: no claim mentions them. -/
structure GraphDB where
  videos : List (String × VideoProps)
  users : List String
  topics : List String
  categories : List String
  subcats : List String
  tags : List String
  keyPoints : List String
deriving DecidableEq, Repr

/-- The external stores visible to the pipeline. -/
structure World where
  pinecone : List PineconeRecord
  graph : GraphDB
deriving DecidableEq, Repr

/-- The argument tuple of `Neo4jService.store_summary`. -/
structure GraphInputs where
  video_id : String
  user_id : String
  title : String
  summary : String
  topic : String
  category : String
  confidence : ℚ
  subcategories : List String
  tags : List String
  key_points : List String
  tone : String
deriving DecidableEq, Repr

/-- Outcomes of all external collaborator calls made during a run. Each
`Except.error e` models the Python call raising an exception with
`str(e) = e`; `jl` returning `none` models `json.loads` raising. -/
structure Oracles where
  enc : String → List Nat
  dec : List Nat → String
  jl : Str → Option JsonVal
  llmSummarize : Except String String
  llmClassify : Except String String
  embedOutcome : Except String (List Int)
  upsertOutcome : Except String Unit
  neo4jOutcome : Except String Unit
  md5hex : String → String
  elapsedSummarize : Nat
  nowIso : String
  graphNow : Nat
  utcNow : Nat
  invokeRaises : Option String

/-- `count_tokens` (nodes.py lines 90-93), with the tiktoken encoder as the
oracle `enc`. -/
def count_tokens (o : Oracles) (text : String) : Nat := (o.enc text).length

/-- `truncate_text` (nodes.py lines 95-104): keep the text whole when within
budget, otherwise decode the first `max_tokens` head tokens. -/
def truncate_text (o : Oracles) (text : String) (max_tokens : Nat) : String :=
  if count_tokens o text ≤ max_tokens then text
  else o.dec ((o.enc text).take max_tokens)

/-- Python `result.get(...)` on a non-dict raises `AttributeError`. -/
def asDict : JsonVal → Except String (List (Str × JsonVal))
  | .obj kvs => .ok kvs
  | _ => .error "AttributeError: object has no attribute get"

/-- `result.get(k, d)` expected to be a string (see the file header for the
treatment of ill-typed JSON values). -/
def getStrD (kvs : List (Str × JsonVal)) (k : Str) (d : String) : Except String String :=
  match dictGet kvs k with
  | none => .ok d
  | some (.str cs) => .ok (String.mk cs)
  | some _ => .error "ValidationError: str expected"

/-- `result.get(k, [])` expected to be a list of strings. -/
def getStrListD (kvs : List (Str × JsonVal)) (k : Str) : Except String (List String) :=
  match dictGet kvs k with
  | none => .ok []
  | some (.arr vs) =>
      vs.mapM (fun v => match v with
        | .str cs => Except.ok (String.mk cs)
        | _ => Except.error "ValidationError: str expected")
  | some _ => .error "ValidationError: list expected"

/-- `result.get(k, d)` expected to be a number. -/
def getNumD (kvs : List (Str × JsonVal)) (k : Str) (d : ℚ) : Except String ℚ :=
  match dictGet kvs k with
  | none => .ok d
  | some (.num q) => .ok q
  | some _ => .error "ValidationError: float expected"

/-- Python `list(set(..))` de-duplication. Python's set iteration order is
unspecified; the model fixes first-occurrence order (no claim depends on
tag order). -/
def pyDedup (l : List String) : List String :=
  l.foldl (fun acc x => if x ∈ acc then acc else acc ++ [x]) []

/-- The values `summarize_node` assigns on its success path. -/
structure SummaryWrites where
  summary : String
  title : String
  tone : String
  key_points : List String
  tags : List String
  token_count : Nat
deriving DecidableEq, Repr

/-- The `try` block of `summarize_node` (nodes.py lines 111-165): truncate the
transcript, call the LLM, parse the response, extract the fields to assign. -/
def summarizeTry (o : Oracles) (s : WorkflowState) : Except String SummaryWrites := do
  let truncated := truncate_text o (pyOrStr s.transcript "") 4000
  let tc := count_tokens o truncated
  let content ← o.llmSummarize
  let result := SummaryOutputParser.parse o.jl (toStr content)
  let kvs ← asDict result
  let summary ← getStrD kvs (toStr "summary") ""
  let title ← getStrD kvs (toStr "title") "Video Summary"
  let tone ← getStrD kvs (toStr "tone") "professional"
  let kps ← getStrListD kvs (toStr "key_points")
  let tags ← getStrListD kvs (toStr "tags")
  pure ⟨summary, title, tone, kps, tags, tc⟩

/-- `summarize_node` (nodes.py lines 106-172). On success it assigns
`summary`, `title`, `tone`, `key_points`, `tags`, `token_count` and also
`processing_time` (line 163); on exception it sets the error channel. -/
def summarize_node (o : Oracles) (s : WorkflowState) : WorkflowState :=
  match summarizeTry o s with
  | .ok r =>
      { s with summary := some r.summary, title := some r.title,
               tone := some r.tone, key_points := r.key_points,
               tags := r.tags, token_count := some r.token_count,
               processing_time := some o.elapsedSummarize }
  | .error e => { s with error := some e, error_step := some "summarize" }

/-- The values `classify_node` assigns on its success path. -/
structure ClassifyWrites where
  topic : String
  category : String
  confidence : ℚ
  subcategories : List String
  tags : List String
deriving DecidableEq, Repr

/-- The `try` block of `classify_node` (nodes.py lines 179-231): call the LLM,
parse, extract, extend the existing tags and de-duplicate. -/
def classifyTry (o : Oracles) (s : WorkflowState) : Except String ClassifyWrites := do
  let content ← o.llmClassify
  let result := ClassificationOutputParser.parse o.jl (toStr content)
  let kvs ← asDict result
  let topic ← getStrD kvs (toStr "topic") "General"
  let category ← getStrD kvs (toStr "category") "Education"
  let confidence ← getNumD kvs (toStr "confidence") (1/2)
  let subcats ← getStrListD kvs (toStr "subcategories")
  let newTags ← getStrListD kvs (toStr "tags")
  pure ⟨topic, category, confidence, subcats, pyDedup (s.tags ++ newTags)⟩

/-- `classify_node` (nodes.py lines 174-238). -/
def classify_node (o : Oracles) (s : WorkflowState) : WorkflowState :=
  match classifyTry o s with
  | .ok r =>
      { s with topic := some r.topic, category := some r.category,
               confidence := some r.confidence,
               subcategories := r.subcategories, tags := r.tags }
  | .error e => { s with error := some e, error_step := some "classify" }

/-- Upsert a vector by id (Pinecone `index.upsert`): replace any record with
the same id, otherwise append. -/
def upsertVec (recs : List PineconeRecord) (r : PineconeRecord) : List PineconeRecord :=
  if recs.any (·.id == r.id) then recs.map (fun p => if p.id == r.id then r else p)
  else recs ++ [r]

/-- The `try` block of `pinecone_store_node` (nodes.py lines 245-275) together
with `PineconeService.store_summary` / `_generate_id` / `_create_metadata`
(pinecone_service.py lines 28-66): embed the summary, derive the deterministic
id `md5(video_id + "_" + user_id)`, build the metadata and upsert.
`_create_metadata` computes `len(summary_data.get("summary", ""))` on the raw
optional summary, so a `None` summary raises `TypeError` inside the try. -/
def pineconeTry (o : Oracles) (w : World) (s : WorkflowState) :
    Except String (World × String) := do
  let emb ← o.embedOutcome
  let vecId := o.md5hex (pyOrStr s.video_id "unknown" ++ "_" ++ pyOrStr s.user_id "anonymous")
  let slen ← match s.summary with
    | some str => Except.ok str.length
    | none => Except.error "TypeError: object of type NoneType has no len"
  let md : VecMetadata :=
    { user_id := pyOrStr s.user_id "anonymous",
      video_id := pyOrStr s.video_id "unknown",
      video_title := s.title, tone := s.tone,
      tags := s.tags, key_points := s.key_points,
      created_at := o.nowIso,
      transcript_length := (pyOrStr s.transcript "").length,
      summary_length := slen }
  let _ ← o.upsertOutcome
  pure ({ w with pinecone := upsertVec w.pinecone ⟨vecId, emb, md⟩ }, vecId)

/-- `pinecone_store_node` (nodes.py lines 240-282). -/
def pinecone_store_node (o : Oracles) (w : World) (s : WorkflowState) :
    World × WorkflowState :=
  match pineconeTry o w s with
  | .ok (w', vid) => (w', { s with pinecone_id := some vid })
  | .error e => (w, { s with error := some e, error_step := some "pinecone_store" })

/-- Insert into a `MERGE`-keyed node set: a no-op when the key is present. -/
def insertIfAbsent (l : List String) (x : String) : List String :=
  if x ∈ l then l else l ++ [x]

/-- `MERGE (v:Video ...) SET ...`: overwrite the properties when the key is
present, otherwise append a fresh node. -/
def upsertAssoc (l : List (String × VideoProps)) (k : String) (v : VideoProps) :
    List (String × VideoProps) :=
  if l.any (·.1 == k) then l.map (fun p => if p.1 == k then (k, v) else p)
  else l ++ [(k, v)]

/-- Cypher `UNWIND`: replace each current row by one row per element of `ys`.
Only the multiplicity matters for the node effects modelled here. -/
def repConcat (rows ys : List String) : List String :=
  rows.foldr (fun _ acc => ys ++ acc) []

namespace Neo4jService

/-- The node effects of the Cypher query in `Neo4jService.store_summary`
(neo4j_service.py lines 48-96), following Cypher row semantics:
the `Video` / `User` / `Topic` / `Category` `MERGE`s run once; `UNWIND
$subcategories` yields one row per subcategory (zero rows kill everything
downstream); `UNWIND $tags` multiplies the rows; `MERGE` on a keyed node is
idempotent per key; the final `CREATE (kp:KeyPoint ...)` runs once per row and
creates a fresh node every time. `now` models the database's `datetime()`. -/
def store_summary (inp : GraphInputs) (now : Nat) (db : GraphDB) : GraphDB :=
  let props : VideoProps :=
    ⟨inp.title, inp.summary, inp.tone, inp.confidence, now⟩
  let db1 : GraphDB :=
    { db with videos := upsertAssoc db.videos inp.video_id props,
              users := insertIfAbsent db.users inp.user_id,
              topics := insertIfAbsent db.topics inp.topic,
              categories := insertIfAbsent db.categories inp.category }
  let rows1 := inp.subcategories
  let db2 := { db1 with subcats := rows1.foldl insertIfAbsent db1.subcats }
  let rows2 := repConcat rows1 inp.tags
  let db3 := { db2 with tags := rows2.foldl insertIfAbsent db2.tags }
  let rows3 := repConcat rows2 inp.key_points
  { db3 with keyPoints := db3.keyPoints ++ rows3 }

end Neo4jService

/-- The `try` block of `neo4j_store_node` (nodes.py lines 289-308) together
with `Neo4jService.store_summary`. The driver/session/query failure is the
oracle `neo4jOutcome`; on failure nothing is written. The Python method
returns `record["video_id"]` when a row survives and the input `video_id`
otherwise, which is the input `video_id` in both cases. -/
def neo4jTry (o : Oracles) (w : World) (s : WorkflowState) :
    Except String (World × String) := do
  let _ ← o.neo4jOutcome
  let vid := pyOrStr s.video_id "unknown"
  let inp : GraphInputs :=
    { video_id := vid,
      user_id := pyOrStr s.user_id "anonymous",
      title := pyOrStr s.title "Unknown Video",
      summary := pyOrStr s.summary "",
      topic := pyOrStr s.topic "General",
      category := pyOrStr s.category "Education",
      confidence := pyOrQ s.confidence (1/2),
      subcategories := s.subcategories,
      tags := s.tags,
      key_points := s.key_points,
      tone := pyOrStr s.tone "professional" }
  pure ({ w with graph := Neo4jService.store_summary inp o.graphNow w.graph }, vid)

/-- `neo4j_store_node` (nodes.py lines 284-315). -/
def neo4j_store_node (o : Oracles) (w : World) (s : WorkflowState) :
    World × WorkflowState :=
  match neo4jTry o w s with
  | .ok (w', gid) => (w', { s with neo4j_id := some gid })
  | .error e => (w, { s with error := some e, error_step := some "neo4j_store" })

/-- `finalize_node` (nodes.py lines 317-337): sets the creation timestamp,
otherwise only logs; never fails. -/
def finalize_node (o : Oracles) (s : WorkflowState) : WorkflowState :=
  { s with created_at := some o.utcNow }

/-- State after the entry-point step `summarize` (invoked unconditionally). -/
def afterSummarize (o : Oracles) (s : WorkflowState) : WorkflowState :=
  summarize_node o s

/-- State after `classify`, when reached. -/
def afterClassify (o : Oracles) (s : WorkflowState) : WorkflowState :=
  classify_node o (afterSummarize o s)

/-- World and state after `pinecone_store`, when reached. -/
def afterPinecone (o : Oracles) (w : World) (s : WorkflowState) :
    World × WorkflowState :=
  pinecone_store_node o w (afterClassify o s)

/-- World and state after `neo4j_store`, when reached. -/
def afterNeo4j (o : Oracles) (w : World) (s : WorkflowState) :
    World × WorkflowState :=
  neo4j_store_node o (afterPinecone o w s).1 (afterPinecone o w s).2

/-- The executor of `create_workflow` (workflow.py lines 16-60): the fixed
linear order summarize → classify → pinecone_store → neo4j_store → finalize,
where each conditional edge (lines 40-58) routes to the next node only when
`not state.error` (Python truthiness) and to `END` otherwise. The third
component is the list of invoked node names, in order. -/
def runPipeline (o : Oracles) (w : World) (s : WorkflowState) :
    World × WorkflowState × List String :=
  if truthyStr (afterSummarize o s).error then
    (w, afterSummarize o s, ["summarize"])
  else if truthyStr (afterClassify o s).error then
    (w, afterClassify o s, ["summarize", "classify"])
  else if truthyStr (afterPinecone o w s).2.error then
    ((afterPinecone o w s).1, (afterPinecone o w s).2,
      ["summarize", "classify", "pinecone_store"])
  else if truthyStr (afterNeo4j o w s).2.error then
    ((afterNeo4j o w s).1, (afterNeo4j o w s).2,
      ["summarize", "classify", "pinecone_store", "neo4j_store"])
  else
    ((afterNeo4j o w s).1, finalize_node o (afterNeo4j o w s).2,
      ["summarize", "classify", "pinecone_store", "neo4j_store", "finalize"])

/-- The fresh `WorkflowState(...)` built by both workflow entry points
(workflow.py lines 87-93 and 126-132). -/
def initialState (youtube_url video_id transcript user_id tone : String) :
    WorkflowState :=
  { youtube_url := some youtube_url, video_id := some video_id,
    transcript := some transcript, user_id := some user_id,
    summary := none, title := none, tone := some tone,
    key_points := [], tags := [],
    topic := none, category := none, confidence := none, subcategories := [],
    pinecone_id := none, neo4j_id := none,
    created_at := none, processing_time := none, token_count := none,
    error := none, error_step := none }

/-- `run_workflow` (workflow.py lines 75-108). `invokeRaises` models
`workflow_graph.ainvoke` raising before producing a result (a library or
programmer error); the handler then returns the initial state with the error
channel set to the exception text and `error_step = "workflow"`. -/
def run_workflow (o : Oracles) (w : World)
    (youtube_url video_id transcript user_id tone : String) :
    World × WorkflowState :=
  let init := initialState youtube_url video_id transcript user_id tone
  match o.invokeRaises with
  | some e => (w, { init with error := some e, error_step := some "workflow" })
  | none =>
      let r := runPipeline o w init
      (r.1, r.2.1)

/-- The in-memory checkpoint store (`MemorySaver`): latest snapshot per
thread id. -/
abbrev CkStore := List (String × WorkflowState)

/-- Save a snapshot, overwriting any existing one for the same thread id. -/
def ckSave (ck : CkStore) (tid : String) (s : WorkflowState) : CkStore :=
  (tid, s) :: ck.filter (fun p => !(p.1 == tid))

/-- Look up the latest snapshot for a thread id. -/
def ckLookup (ck : CkStore) (tid : String) : Option WorkflowState :=
  (ck.find? (·.1 == tid)).map (·.2)

/-- `run_workflow_with_checkpoint` (workflow.py lines 110-147): defaults the
thread id to `"workflow_" + video_id`, runs the pipeline, and the checkpointer
keeps the final snapshot under that thread id. When `ainvoke` raises, the
handler returns the initial state with the error channel set, as in
`run_workflow`. -/
def run_workflow_with_checkpoint (o : Oracles) (w : World)
    (youtube_url video_id transcript user_id tone : String)
    (thread_id : Option String) (ck : CkStore) :
    World × CkStore × WorkflowState :=
  let tid := thread_id.getD ("workflow_" ++ video_id)
  let init := initialState youtube_url video_id transcript user_id tone
  match o.invokeRaises with
  | some e => (w, ck, { init with error := some e, error_step := some "workflow" })
  | none =>
      let r := runPipeline o w init
      (r.1, ckSave ck tid r.2.1, r.2.1)

/-- The dictionary returned by `get_workflow_status`. Keys missing from the
Python "not found" dictionary are modelled as `none`. -/
structure WfStatus where
  thread_id : String
  completed : Bool
  error : Option String
  error_step : Option String
  video_id : Option String
  summary : Option String
  topic : Option String
  category : Option String
  pinecone_id : Option String
  neo4j_id : Option String
deriving DecidableEq, Repr

/-- `get_workflow_status` (workflow.py lines 149-182): when the checkpointer
holds a snapshot, report it with `completed = true` whether or not it is a
failed run; otherwise `completed = false` with error `"Thread not found"`. -/
def get_workflow_status (ck : CkStore) (tid : String) : WfStatus :=
  match ckLookup ck tid with
  | some st =>
      { thread_id := tid, completed := true, error := st.error,
        error_step := st.error_step, video_id := st.video_id,
        summary := st.summary, topic := st.topic, category := st.category,
        pinecone_id := st.pinecone_id, neo4j_id := st.neo4j_id }
  | none =>
      { thread_id := tid, completed := false, error := some "Thread not found",
        error_step := none, video_id := none, summary := none, topic := none,
        category := none, pinecone_id := none, neo4j_id := none }

section FrameLemmas

variable (o : Oracles) (w : World) (s : WorkflowState)

theorem summarize_node_frame :
    (summarize_node o s).youtube_url = s.youtube_url ∧
    (summarize_node o s).video_id = s.video_id ∧
    (summarize_node o s).transcript = s.transcript ∧
    (summarize_node o s).user_id = s.user_id ∧
    (summarize_node o s).topic = s.topic ∧
    (summarize_node o s).category = s.category ∧
    (summarize_node o s).confidence = s.confidence ∧
    (summarize_node o s).subcategories = s.subcategories ∧
    (summarize_node o s).pinecone_id = s.pinecone_id ∧
    (summarize_node o s).neo4j_id = s.neo4j_id ∧
    (summarize_node o s).created_at = s.created_at := by
  unfold summarize_node
  cases summarizeTry o s <;> simp

theorem classify_node_frame :
    (classify_node o s).youtube_url = s.youtube_url ∧
    (classify_node o s).video_id = s.video_id ∧
    (classify_node o s).transcript = s.transcript ∧
    (classify_node o s).user_id = s.user_id ∧
    (classify_node o s).summary = s.summary ∧
    (classify_node o s).title = s.title ∧
    (classify_node o s).tone = s.tone ∧
    (classify_node o s).key_points = s.key_points ∧
    (classify_node o s).token_count = s.token_count ∧
    (classify_node o s).processing_time = s.processing_time ∧
    (classify_node o s).pinecone_id = s.pinecone_id ∧
    (classify_node o s).neo4j_id = s.neo4j_id ∧
    (classify_node o s).created_at = s.created_at := by
  unfold classify_node
  cases classifyTry o s <;> simp

theorem pinecone_node_frame :
    (pinecone_store_node o w s).2.neo4j_id = s.neo4j_id ∧
    (pinecone_store_node o w s).2.created_at = s.created_at ∧
    (pinecone_store_node o w s).2.topic = s.topic ∧
    (pinecone_store_node o w s).2.category = s.category ∧
    (pinecone_store_node o w s).2.summary = s.summary := by
  unfold pinecone_store_node
  rcases pineconeTry o w s with p | e
  · simp
  · simp

theorem neo4j_node_frame :
    (neo4j_store_node o w s).2.created_at = s.created_at ∧
    (neo4j_store_node o w s).2.pinecone_id = s.pinecone_id ∧
    (neo4j_store_node o w s).2.topic = s.topic ∧
    (neo4j_store_node o w s).2.summary = s.summary := by
  unfold neo4j_store_node
  rcases neo4jTry o w s with p | e
  · simp
  · simp

end FrameLemmas

/-- C1: once the error channel is non-empty the executor invokes no further
node (the trace stops at the failing node and the failing node's state is
returned unchanged), every step after the failing one leaves its output
fields at their pre-invocation values, and in particular when the state
leaves `summarize` with the error set, `classify` is never invoked and the
returned error channel is exactly the upstream failure's. -/
theorem C1_halt_on_error (o : Oracles) (w : World) (s : WorkflowState) :
    (truthyStr (afterSummarize o s).error = true →
      runPipeline o w s = (w, afterSummarize o s, ["summarize"]) ∧
      "classify" ∉ (runPipeline o w s).2.2 ∧
      (runPipeline o w s).2.1.error = (afterSummarize o s).error ∧
      (runPipeline o w s).2.1.error_step = (afterSummarize o s).error_step ∧
      (afterSummarize o s).topic = s.topic ∧
      (afterSummarize o s).category = s.category ∧
      (afterSummarize o s).confidence = s.confidence ∧
      (afterSummarize o s).subcategories = s.subcategories ∧
      (afterSummarize o s).pinecone_id = s.pinecone_id ∧
      (afterSummarize o s).neo4j_id = s.neo4j_id ∧
      (afterSummarize o s).created_at = s.created_at) ∧
    (truthyStr (afterSummarize o s).error = false →
     truthyStr (afterClassify o s).error = true →
      runPipeline o w s = (w, afterClassify o s, ["summarize", "classify"]) ∧
      (afterClassify o s).pinecone_id = s.pinecone_id ∧
      (afterClassify o s).neo4j_id = s.neo4j_id ∧
      (afterClassify o s).created_at = s.created_at) ∧
    (truthyStr (afterSummarize o s).error = false →
     truthyStr (afterClassify o s).error = false →
     truthyStr (afterPinecone o w s).2.error = true →
      runPipeline o w s = ((afterPinecone o w s).1, (afterPinecone o w s).2,
        ["summarize", "classify", "pinecone_store"]) ∧
      (afterPinecone o w s).2.neo4j_id = s.neo4j_id ∧
      (afterPinecone o w s).2.created_at = s.created_at) ∧
    (truthyStr (afterSummarize o s).error = false →
     truthyStr (afterClassify o s).error = false →
     truthyStr (afterPinecone o w s).2.error = false →
     truthyStr (afterNeo4j o w s).2.error = true →
      runPipeline o w s = ((afterNeo4j o w s).1, (afterNeo4j o w s).2,
        ["summarize", "classify", "pinecone_store", "neo4j_store"]) ∧
      (afterNeo4j o w s).2.created_at = s.created_at) := by
  obtain ⟨-, -, -, -, hA5, hA6, hA7, hA8, hA9, hA10, hA11⟩ :=
    summarize_node_frame o s
  obtain ⟨-, -, -, -, -, -, -, -, -, -, hB11, hB12, hB13⟩ :=
    classify_node_frame o (afterSummarize o s)
  obtain ⟨hC1, hC2, -, -, -⟩ := pinecone_node_frame o w (afterClassify o s)
  obtain ⟨hD1, -, -, -⟩ :=
    neo4j_node_frame o (afterPinecone o w s).1 (afterPinecone o w s).2
  refine ⟨fun h1 => ?_, fun h1 h2 => ?_, fun h1 h2 h3 => ?_,
    fun h1 h2 h3 h4 => ?_⟩
  · have hrun : runPipeline o w s = (w, afterSummarize o s, ["summarize"]) := by
      simp [runPipeline, h1]
    refine ⟨hrun, ?_, ?_, ?_, hA5, hA6, hA7, hA8, hA9, hA10, hA11⟩
    · rw [hrun]
      show "classify" ∉ ["summarize"]
      decide
    · rw [hrun]
    · rw [hrun]
  · have hrun : runPipeline o w s
        = (w, afterClassify o s, ["summarize", "classify"]) := by
      simp [runPipeline, h1, h2]
    exact ⟨hrun, hB11.trans hA9, hB12.trans hA10, hB13.trans hA11⟩
  · have hrun : runPipeline o w s = ((afterPinecone o w s).1,
        (afterPinecone o w s).2, ["summarize", "classify", "pinecone_store"]) := by
      simp [runPipeline, h1, h2, h3]
    exact ⟨hrun, ((hC1.trans hB12).trans hA10 : _),
      ((hC2.trans hB13).trans hA11 : _)⟩
  · have hrun : runPipeline o w s = ((afterNeo4j o w s).1, (afterNeo4j o w s).2,
        ["summarize", "classify", "pinecone_store", "neo4j_store"]) := by
      simp [runPipeline, h1, h2, h3, h4]
    exact ⟨hrun, ((hD1.trans hC2).trans hB13).trans hA11⟩

/-- Oracle bundle whose summarize-step LLM call fails. -/
def oFail1 : Oracles :=
  { enc := fun _ => [], dec := fun _ => "", jl := fun _ => none,
    llmSummarize := .error "LLM timeout", llmClassify := .error "unreached",
    embedOutcome := .error "unreached", upsertOutcome := .error "unreached",
    neo4jOutcome := .error "unreached", md5hex := fun h => h,
    elapsedSummarize := 0, nowIso := "", graphNow := 0, utcNow := 0,
    invokeRaises := none }

/-- The empty external world. -/
def w0 : World := ⟨[], ⟨[], [], [], [], [], [], []⟩⟩

/-- A fresh initial run state for concrete evaluations. -/
def s0 : WorkflowState := initialState "url" "vid" "tx" "uid" "professional"

/-- Witness for C1: with a failing summarize step, the first arm's hypothesis
holds and the executor halts after `summarize`. -/
theorem C1_halt_on_error_witness :
    truthyStr (afterSummarize oFail1 s0).error = true ∧
    (runPipeline oFail1 w0 s0 = (w0, afterSummarize oFail1 s0, ["summarize"]) ∧
      "classify" ∉ (runPipeline oFail1 w0 s0).2.2 ∧
      (runPipeline oFail1 w0 s0).2.1.error = (afterSummarize oFail1 s0).error ∧
      (runPipeline oFail1 w0 s0).2.1.error_step
        = (afterSummarize oFail1 s0).error_step ∧
      (afterSummarize oFail1 s0).topic = s0.topic ∧
      (afterSummarize oFail1 s0).category = s0.category ∧
      (afterSummarize oFail1 s0).confidence = s0.confidence ∧
      (afterSummarize oFail1 s0).subcategories = s0.subcategories ∧
      (afterSummarize oFail1 s0).pinecone_id = s0.pinecone_id ∧
      (afterSummarize oFail1 s0).neo4j_id = s0.neo4j_id ∧
      (afterSummarize oFail1 s0).created_at = s0.created_at) :=
  have h1 : truthyStr (afterSummarize oFail1 s0).error = true := by decide
  ⟨h1, (C1_halt_on_error oFail1 w0 s0).1 h1⟩

/-- Field access on a JSON object. -/
def objGetField (v : JsonVal) (k : Str) : Option JsonVal :=
  match v with
  | .obj kvs => dictGet kvs k
  | _ => none

/-- C2: the Summarize parser returns (a) the parsed contents of the
```json-fenced block when the marker is present, else (b) the parse of the
substring from the first opening brace to the last closing brace when both
braces occur, else (c) the default object whose `summary` field is the raw
text verbatim; and a parse exception (`jl` returning `none`) under (a) or (b)
yields the same default object. -/
theorem C2_summary_parse_branches (jl : Str → Option JsonVal) (text : Str) :
    (containsSub text fenceJson = true →
      SummaryOutputParser.parse jl text
        = (jl (fencedBlockContents text)).getD (summaryDefault text)) ∧
    (containsSub text fenceJson = false →
      (containsSub text obrace && containsSub text cbrace) = true →
      SummaryOutputParser.parse jl text
        = (jl (braceSpan text)).getD (summaryDefault text)) ∧
    (containsSub text fenceJson = false →
      (containsSub text obrace && containsSub text cbrace) = false →
      SummaryOutputParser.parse jl text = summaryDefault text) ∧
    objGetField (summaryDefault text) (toStr "summary") = some (.str text) :=
  ⟨summaryParse_fenced jl text, summaryParse_braces jl text,
    summaryParse_fallback jl text, rfl⟩

/-- A `json.loads` oracle that always raises. -/
def jlFail : Str → Option JsonVal := fun _ => none

/-- Witness for C2: each branch hypothesis discharged at a concrete text. -/
theorem C2_summary_parse_branches_witness :
    (containsSub (toStr "```json 1 ```") fenceJson = true ∧
      SummaryOutputParser.parse jlFail (toStr "```json 1 ```")
        = (jlFail (fencedBlockContents (toStr "```json 1 ```"))).getD
            (summaryDefault (toStr "```json 1 ```"))) ∧
    (containsSub (toStr "x \x7b1\x7d y") fenceJson = false ∧
      (containsSub (toStr "x \x7b1\x7d y") obrace
        && containsSub (toStr "x \x7b1\x7d y") cbrace) = true ∧
      SummaryOutputParser.parse jlFail (toStr "x \x7b1\x7d y")
        = (jlFail (braceSpan (toStr "x \x7b1\x7d y"))).getD
            (summaryDefault (toStr "x \x7b1\x7d y"))) ∧
    (containsSub (toStr "plain text") fenceJson = false ∧
      (containsSub (toStr "plain text") obrace
        && containsSub (toStr "plain text") cbrace) = false ∧
      SummaryOutputParser.parse jlFail (toStr "plain text")
        = summaryDefault (toStr "plain text")) :=
  ⟨⟨by decide, (C2_summary_parse_branches jlFail _).1 (by decide)⟩,
   ⟨by decide, by decide,
     (C2_summary_parse_branches jlFail _).2.1 (by decide) (by decide)⟩,
   ⟨by decide, by decide,
     (C2_summary_parse_branches jlFail _).2.2.1 (by decide) (by decide)⟩⟩

/-- Text reaching branch (c) of both parsers: no fence marker, no braces. -/
def exTextC5 : Str := toStr "not a structured response"

/-- Counterexample to C5: on a branch-(c) text the Classify parser returns
the fixed default object, and no field of that object holds the raw response
text — unlike the Summarize parser's default, which does hold it. The claim
"the Classify step's parser also returns a default object whose primary text
field holds the raw response text verbatim" is therefore false. -/
theorem C5_counterexample :
    containsSub exTextC5 fenceJson = false ∧
    (containsSub exTextC5 obrace && containsSub exTextC5 cbrace) = false ∧
    ClassificationOutputParser.parse jlFail exTextC5 = classificationDefault ∧
    objHasStrField (ClassificationOutputParser.parse jlFail exTextC5) exTextC5
      = false ∧
    objHasStrField (SummaryOutputParser.parse jlFail exTextC5) exTextC5
      = true :=
  ⟨by decide, by decide, rfl, by decide, by decide⟩

/-- C5 amended: both parsers share the same branch structure, but in branch
(c) the Classify parser returns the fixed default object (topic "General",
category "Education", confidence 0.5, empty subcategories and tags), which is
independent of the raw response text and does not preserve it, while the
Summarize parser's default carries the raw text in its `summary` field. -/
theorem C5_amended_classify_fallback (jl : Str → Option JsonVal) (text : Str)
    (h1 : containsSub text fenceJson = false)
    (h2 : (containsSub text obrace && containsSub text cbrace) = false) :
    ClassificationOutputParser.parse jl text = classificationDefault ∧
    SummaryOutputParser.parse jl text = summaryDefault text ∧
    objGetField (summaryDefault text) (toStr "summary") = some (.str text) :=
  ⟨classificationParse_fallback jl text h1 h2,
    summaryParse_fallback jl text h1 h2, rfl⟩

/-- Witness for the amended C5 at a concrete branch-(c) text. -/
theorem C5_amended_classify_fallback_witness :
    containsSub exTextC5 fenceJson = false ∧
    (containsSub exTextC5 obrace && containsSub exTextC5 cbrace) = false ∧
    (ClassificationOutputParser.parse jlFail exTextC5 = classificationDefault ∧
      SummaryOutputParser.parse jlFail exTextC5 = summaryDefault exTextC5 ∧
      objGetField (summaryDefault exTextC5) (toStr "summary")
        = some (.str exTextC5)) :=
  ⟨by decide, by decide,
    C5_amended_classify_fallback jlFail exTextC5 (by decide) (by decide)⟩

/-- C6: both parsers are total functions of the response text: every result
is either a value actually produced by `json.loads` or the branch-(c) default
object, and when `json.loads` raises on every input (the `fun _ => none`
oracle) the parsers return exactly the default objects — an exception can
never escape `parse`. -/
theorem C6_parsers_never_raise (jl : Str → Option JsonVal) (text : Str) :
    ((∃ s, jl s = some (SummaryOutputParser.parse jl text)) ∨
      SummaryOutputParser.parse jl text = summaryDefault text) ∧
    ((∃ s, jl s = some (ClassificationOutputParser.parse jl text)) ∨
      ClassificationOutputParser.parse jl text = classificationDefault) ∧
    SummaryOutputParser.parse (fun _ => none) text = summaryDefault text ∧
    ClassificationOutputParser.parse (fun _ => none) text
      = classificationDefault := by
  refine ⟨?_, ?_, ?_, ?_⟩
  · unfold SummaryOutputParser.parse
    split_ifs with h1 h2
    · cases h : jl (fencedBlockContents text) with
      | none => right; simp [h]
      | some v => left; exact ⟨fencedBlockContents text, by simp [h]⟩
    · cases h : jl (braceSpan text) with
      | none => right; simp [h]
      | some v => left; exact ⟨braceSpan text, by simp [h]⟩
    · right; rfl
  · unfold ClassificationOutputParser.parse
    split_ifs with h1 h2
    · cases h : jl (fencedBlockContents text) with
      | none => right; simp [h]
      | some v => left; exact ⟨fencedBlockContents text, by simp [h]⟩
    · cases h : jl (braceSpan text) with
      | none => right; simp [h]
      | some v => left; exact ⟨braceSpan text, by simp [h]⟩
    · right; rfl
  · unfold SummaryOutputParser.parse
    split_ifs <;> rfl
  · unfold ClassificationOutputParser.parse
    split_ifs <;> rfl

/-- C7: the workflow entry points always return a `WorkflowState` value; when
the underlying `ainvoke` raises with description `e`, both return the initial
state with `error = e` and `error_step = "workflow"` set, and every derived,
storage and metadata field still at its initial default. -/
theorem C7_entry_points_no_throw (o : Oracles) (w : World)
    (url vid tx uid tone e : String) (tid : Option String) (ck : CkStore)
    (h : o.invokeRaises = some e) :
    run_workflow o w url vid tx uid tone
      = (w, { initialState url vid tx uid tone with
              error := some e, error_step := some "workflow" }) ∧
    (run_workflow o w url vid tx uid tone).2.error = some e ∧
    (run_workflow o w url vid tx uid tone).2.error_step = some "workflow" ∧
    (run_workflow o w url vid tx uid tone).2.summary = none ∧
    (run_workflow o w url vid tx uid tone).2.title = none ∧
    (run_workflow o w url vid tx uid tone).2.key_points = [] ∧
    (run_workflow o w url vid tx uid tone).2.tags = [] ∧
    (run_workflow o w url vid tx uid tone).2.topic = none ∧
    (run_workflow o w url vid tx uid tone).2.category = none ∧
    (run_workflow o w url vid tx uid tone).2.confidence = none ∧
    (run_workflow o w url vid tx uid tone).2.subcategories = [] ∧
    (run_workflow o w url vid tx uid tone).2.pinecone_id = none ∧
    (run_workflow o w url vid tx uid tone).2.neo4j_id = none ∧
    (run_workflow o w url vid tx uid tone).2.created_at = none ∧
    (run_workflow o w url vid tx uid tone).2.processing_time = none ∧
    (run_workflow o w url vid tx uid tone).2.token_count = none ∧
    (run_workflow_with_checkpoint o w url vid tx uid tone tid ck).2.2
      = { initialState url vid tx uid tone with
          error := some e, error_step := some "workflow" } := by
  have hr : run_workflow o w url vid tx uid tone
      = (w, { initialState url vid tx uid tone with
              error := some e, error_step := some "workflow" }) := by
    simp [run_workflow, h]
  have hc : (run_workflow_with_checkpoint o w url vid tx uid tone tid ck).2.2
      = { initialState url vid tx uid tone with
          error := some e, error_step := some "workflow" } := by
    simp [run_workflow_with_checkpoint, h]
  rw [hr]
  exact ⟨rfl, rfl, rfl, rfl, rfl, rfl, rfl, rfl, rfl, rfl, rfl, rfl, rfl,
    rfl, rfl, rfl, hc⟩

/-- Oracle bundle whose `ainvoke` raises. -/
def oRaise : Oracles :=
  { oFail1 with invokeRaises := some "KeyError: configurable" }

/-- Witness for C7 at a concrete raising oracle. -/
theorem C7_entry_points_no_throw_witness :
    oRaise.invokeRaises = some "KeyError: configurable" ∧
    run_workflow oRaise w0 "url" "vid" "tx" "uid" "professional"
      = (w0, { initialState "url" "vid" "tx" "uid" "professional" with
               error := some "KeyError: configurable",
               error_step := some "workflow" }) :=
  ⟨rfl, (C7_entry_points_no_throw oRaise w0 "url" "vid" "tx" "uid"
    "professional" "KeyError: configurable" none [] rfl).1⟩

/-- C8: a status query reports `completed = false` exactly when the thread id
is unknown to the checkpoint store; whenever a snapshot exists, the query
returns that snapshot's fields (error, error_step, video_id, summary, topic,
category, pinecone_id, neo4j_id) with `completed = true`, whether or not the
snapshot is a failed run. -/
theorem C8_status_query (ck : CkStore) (tid : String) :
    ((get_workflow_status ck tid).completed = false ↔ ckLookup ck tid = none) ∧
    (∀ st, ckLookup ck tid = some st →
      get_workflow_status ck tid
        = ⟨tid, true, st.error, st.error_step, st.video_id, st.summary,
           st.topic, st.category, st.pinecone_id, st.neo4j_id⟩) := by
  constructor
  · cases h : ckLookup ck tid <;> simp [get_workflow_status, h]
  · intro st hst
    simp [get_workflow_status, hst]

/-- A checkpoint store holding one (failed) snapshot. -/
def ckW : CkStore :=
  [("t1", { s0 with error := some "boom", error_step := some "summarize" })]

/-- Witness for C8: the snapshot's fields are returned even though it is a
failed run. -/
theorem C8_status_query_witness :
    ckLookup ckW "t1"
      = some { s0 with error := some "boom", error_step := some "summarize" } ∧
    get_workflow_status ckW "t1"
      = ⟨"t1", true, some "boom", some "summarize", some "vid", none, none,
         none, none, none⟩ :=
  have h : ckLookup ckW "t1"
      = some { s0 with error := some "boom", error_step := some "summarize" } :=
    rfl
  ⟨h, (C8_status_query ckW "t1").2 _ h⟩

/-- Oracle bundle for a fully successful run: the LLM answers are unfenced
plain text (so both parsers fall back to their default objects) and all
external stores succeed. -/
def oOk : Oracles :=
  { enc := fun _ => [], dec := fun _ => "", jl := fun _ => none,
    llmSummarize := .ok "great video", llmClassify := .ok "classified",
    embedOutcome := .ok [], upsertOutcome := .ok (), neo4jOutcome := .ok (),
    md5hex := fun h => h, elapsedSummarize := 7, nowIso := "now",
    graphNow := 3, utcNow := 9, invokeRaises := none }

/-- Counterexample to C9: a successful Summarize step also modifies
`processing_time` (nodes.py line 163), so the set of modified fields is not
contained in the claimed {summary, title, tone, key_points, tags,
token_count}. -/
theorem C9_counterexample :
    (summarize_node oOk s0).error = none ∧
    s0.processing_time = none ∧
    (summarize_node oOk s0).processing_time = some 7 := by
  refine ⟨rfl, rfl, rfl⟩

/-- C9 amended: a successful Summarize step modifies exactly the fields
{summary, title, tone, key_points, tags, token_count, processing_time}; every
other field of the run state (inputs, classification results, storage ids,
created_at, error channel) keeps its pre-invocation value. -/
theorem C9_amended_summarize_frame (o : Oracles) (s : WorkflowState)
    (r : SummaryWrites) (h : summarizeTry o s = .ok r) :
    summarize_node o s
      = { s with summary := some r.summary, title := some r.title,
                 tone := some r.tone, key_points := r.key_points,
                 tags := r.tags, token_count := some r.token_count,
                 processing_time := some o.elapsedSummarize } ∧
    (summarize_node o s).youtube_url = s.youtube_url ∧
    (summarize_node o s).video_id = s.video_id ∧
    (summarize_node o s).transcript = s.transcript ∧
    (summarize_node o s).user_id = s.user_id ∧
    (summarize_node o s).topic = s.topic ∧
    (summarize_node o s).category = s.category ∧
    (summarize_node o s).confidence = s.confidence ∧
    (summarize_node o s).subcategories = s.subcategories ∧
    (summarize_node o s).pinecone_id = s.pinecone_id ∧
    (summarize_node o s).neo4j_id = s.neo4j_id ∧
    (summarize_node o s).created_at = s.created_at ∧
    (summarize_node o s).error = s.error ∧
    (summarize_node o s).error_step = s.error_step ∧
    (summarize_node o s).processing_time = some o.elapsedSummarize := by
  simp [summarize_node, h]

/-- The writes of the concrete successful summarize run under `oOk`. -/
def rOk : SummaryWrites :=
  ⟨"great video", "Video Summary", "professional", [], [], 0⟩

/-- Witness for the amended C9 at the concrete successful run. -/
theorem C9_amended_summarize_frame_witness :
    summarizeTry oOk s0 = .ok rOk ∧
    summarize_node oOk s0
      = { s0 with summary := some "great video", title := some "Video Summary",
                  tone := some "professional", key_points := [], tags := [],
                  token_count := some 0, processing_time := some 7 } :=
  have h : summarizeTry oOk s0 = .ok rOk := rfl
  ⟨h, (C9_amended_summarize_frame oOk s0 rOk h).1⟩

theorem summarize_created (o : Oracles) (s : WorkflowState) :
    (summarize_node o s).created_at = s.created_at := by
  unfold summarize_node; cases summarizeTry o s <;> rfl

theorem classify_created (o : Oracles) (s : WorkflowState) :
    (classify_node o s).created_at = s.created_at := by
  unfold classify_node; cases classifyTry o s <;> rfl

theorem pinecone_created (o : Oracles) (w : World) (s : WorkflowState) :
    (pinecone_store_node o w s).2.created_at = s.created_at := by
  unfold pinecone_store_node
  rcases pineconeTry o w s with ⟨pw, pv⟩ | e <;> rfl

theorem neo4j_created (o : Oracles) (w : World) (s : WorkflowState) :
    (neo4j_store_node o w s).2.created_at = s.created_at := by
  unfold neo4j_store_node
  rcases neo4jTry o w s with ⟨pw, pv⟩ | e <;> rfl

theorem ckLookup_ckSave (ck : CkStore) (tid : String) (st : WorkflowState) :
    ckLookup (ckSave ck tid st) tid = some st := by
  simp [ckLookup, ckSave]

/-- C10: under a checkpointed run (with `ainvoke` not raising), whenever the
terminal state carries a non-empty error the `finalize` node was never
invoked, `created_at` is still `none` in the state returned and in the
persisted snapshot; and `created_at` is set in the terminal state exactly on
runs whose trace reaches `finalize`. -/
theorem C10_created_at_iff_finalize (o : Oracles) (w : World)
    (url vid tx uid tone : String) (tid : Option String) (ck : CkStore)
    (h : o.invokeRaises = none) :
    (truthyStr
        (run_workflow_with_checkpoint o w url vid tx uid tone tid ck).2.2.error
        = true →
      "finalize" ∉ (runPipeline o w (initialState url vid tx uid tone)).2.2 ∧
      (run_workflow_with_checkpoint o w url vid tx uid tone tid ck).2.2.created_at
        = none ∧
      ckLookup (run_workflow_with_checkpoint o w url vid tx uid tone tid ck).2.1
          (tid.getD ("workflow_" ++ vid))
        = some (run_workflow_with_checkpoint o w url vid tx uid tone tid ck).2.2) ∧
    ((run_workflow_with_checkpoint o w url vid tx uid tone tid ck).2.2.created_at
        ≠ none
      ↔ "finalize" ∈ (runPipeline o w (initialState url vid tx uid tone)).2.2) := by
  have hr : run_workflow_with_checkpoint o w url vid tx uid tone tid ck
      = ((runPipeline o w (initialState url vid tx uid tone)).1,
         ckSave ck (tid.getD ("workflow_" ++ vid))
           (runPipeline o w (initialState url vid tx uid tone)).2.1,
         (runPipeline o w (initialState url vid tx uid tone)).2.1) := by
    simp [run_workflow_with_checkpoint, h]
  rw [hr]
  have hcaS : (afterSummarize o (initialState url vid tx uid tone)).created_at
      = none :=
    (summarize_created o (initialState url vid tx uid tone)).trans rfl
  have hcaC : (afterClassify o (initialState url vid tx uid tone)).created_at
      = none :=
    (classify_created o (afterSummarize o (initialState url vid tx uid tone))).trans
      hcaS
  have hcaP :
      (afterPinecone o w (initialState url vid tx uid tone)).2.created_at
        = none :=
    (pinecone_created o w
      (afterClassify o (initialState url vid tx uid tone))).trans hcaC
  have hcaN : (afterNeo4j o w (initialState url vid tx uid tone)).2.created_at
      = none :=
    (neo4j_created o (afterPinecone o w (initialState url vid tx uid tone)).1
      (afterPinecone o w (initialState url vid tx uid tone)).2).trans hcaP
  by_cases g1 : truthyStr
      (afterSummarize o (initialState url vid tx uid tone)).error = true
  · have hpe : runPipeline o w (initialState url vid tx uid tone)
        = (w, afterSummarize o (initialState url vid tx uid tone),
           ["summarize"]) := by
      simp [runPipeline, g1]
    rw [hpe]
    refine ⟨fun _ => ⟨?_, hcaS, ckLookup_ckSave ck _ _⟩, iff_of_false ?_ ?_⟩
    · show "finalize" ∉ ["summarize"]; decide
    · simp [hcaS]
    · show "finalize" ∉ ["summarize"]; decide
  · by_cases g2 : truthyStr
        (afterClassify o (initialState url vid tx uid tone)).error = true
    · have hpe : runPipeline o w (initialState url vid tx uid tone)
          = (w, afterClassify o (initialState url vid tx uid tone),
             ["summarize", "classify"]) := by
        simp [runPipeline, g1, g2]
      rw [hpe]
      refine ⟨fun _ => ⟨?_, hcaC, ckLookup_ckSave ck _ _⟩, iff_of_false ?_ ?_⟩
      · show "finalize" ∉ ["summarize", "classify"]; decide
      · simp [hcaC]
      · show "finalize" ∉ ["summarize", "classify"]; decide
    · by_cases g3 : truthyStr
          (afterPinecone o w (initialState url vid tx uid tone)).2.error = true
      · have hpe : runPipeline o w (initialState url vid tx uid tone)
            = ((afterPinecone o w (initialState url vid tx uid tone)).1,
               (afterPinecone o w (initialState url vid tx uid tone)).2,
               ["summarize", "classify", "pinecone_store"]) := by
          simp [runPipeline, g1, g2, g3]
        rw [hpe]
        refine ⟨fun _ => ⟨?_, hcaP, ckLookup_ckSave ck _ _⟩,
          iff_of_false ?_ ?_⟩
        · show "finalize" ∉ ["summarize", "classify", "pinecone_store"]; decide
        · simp [hcaP]
        · show "finalize" ∉ ["summarize", "classify", "pinecone_store"]; decide
      · by_cases g4 : truthyStr
            (afterNeo4j o w (initialState url vid tx uid tone)).2.error = true
        · have hpe : runPipeline o w (initialState url vid tx uid tone)
              = ((afterNeo4j o w (initialState url vid tx uid tone)).1,
                 (afterNeo4j o w (initialState url vid tx uid tone)).2,
                 ["summarize", "classify", "pinecone_store", "neo4j_store"]) := by
            simp [runPipeline, g1, g2, g3, g4]
          rw [hpe]
          refine ⟨fun _ => ⟨?_, hcaN, ckLookup_ckSave ck _ _⟩,
            iff_of_false ?_ ?_⟩
          · show "finalize"
                ∉ ["summarize", "classify", "pinecone_store", "neo4j_store"]
            decide
          · simp [hcaN]
          · show "finalize"
                ∉ ["summarize", "classify", "pinecone_store", "neo4j_store"]
            decide
        · have hpe : runPipeline o w (initialState url vid tx uid tone)
              = ((afterNeo4j o w (initialState url vid tx uid tone)).1,
                 finalize_node o
                   (afterNeo4j o w (initialState url vid tx uid tone)).2,
                 ["summarize", "classify", "pinecone_store", "neo4j_store",
                  "finalize"]) := by
            simp [runPipeline, g1, g2, g3, g4]
          rw [hpe]
          refine ⟨fun hyp => absurd hyp g4, iff_of_true ?_ ?_⟩
          · show some o.utcNow ≠ none
            simp
          · show "finalize" ∈ ["summarize", "classify", "pinecone_store",
              "neo4j_store", "finalize"]
            decide

/-- Witness for C10: the summarize step fails, so the run is persisted with
`created_at = none` and `finalize` absent from the trace. -/
theorem C10_created_at_iff_finalize_witness :
    oFail1.invokeRaises = none ∧
    truthyStr (run_workflow_with_checkpoint oFail1 w0 "url" "vid" "tx" "uid"
        "professional" none []).2.2.error = true ∧
    ("finalize" ∉ (runPipeline oFail1 w0
        (initialState "url" "vid" "tx" "uid" "professional")).2.2 ∧
      (run_workflow_with_checkpoint oFail1 w0 "url" "vid" "tx" "uid"
          "professional" none []).2.2.created_at = none ∧
      ckLookup (run_workflow_with_checkpoint oFail1 w0 "url" "vid" "tx" "uid"
            "professional" none []).2.1 ((none : Option String).getD
            ("workflow_" ++ "vid"))
        = some (run_workflow_with_checkpoint oFail1 w0 "url" "vid" "tx" "uid"
            "professional" none []).2.2) :=
  have h2 : truthyStr (run_workflow_with_checkpoint oFail1 w0 "url" "vid" "tx"
      "uid" "professional" none []).2.2.error = true := by decide
  ⟨rfl, h2,
    (C10_created_at_iff_finalize oFail1 w0 "url" "vid" "tx" "uid"
      "professional" none [] rfl).1 h2⟩

theorem summarize_neo4j_id (o : Oracles) (s : WorkflowState) :
    (summarize_node o s).neo4j_id = s.neo4j_id := by
  unfold summarize_node; cases summarizeTry o s <;> rfl

theorem classify_neo4j_id (o : Oracles) (s : WorkflowState) :
    (classify_node o s).neo4j_id = s.neo4j_id := by
  unfold classify_node; cases classifyTry o s <;> rfl

theorem afterNeo4j_def (o : Oracles) (w : World) (s : WorkflowState) :
    afterNeo4j o w s
      = neo4j_store_node o (afterPinecone o w s).1 (afterPinecone o w s).2 :=
  rfl

/-- An upsert leaves the upserted record present in the store. -/
theorem mem_upsertVec (recs : List PineconeRecord) (r : PineconeRecord) :
    r ∈ upsertVec recs r := by
  unfold upsertVec
  split_ifs with h
  · obtain ⟨p, hp, hpe⟩ := List.any_eq_true.mp h
    refine List.mem_map.mpr ⟨p, hp, ?_⟩
    simp [hpe]
  · simp

/-- Shape of a successful `pinecone_store_node` run: the vector record with
the md5-derived id is upserted and `pinecone_id` is set to it. -/
theorem pinecone_success_shape (o : Oracles) (w : World) (s : WorkflowState)
    (emb : List Int) (m : String)
    (hE : o.embedOutcome = .ok emb) (hU : o.upsertOutcome = .ok ())
    (hM : s.summary = some m) :
    pinecone_store_node o w s
      = ({ w with pinecone := (upsertVec w.pinecone
            ⟨o.md5hex (pyOrStr s.video_id "unknown" ++ "_"
                ++ pyOrStr s.user_id "anonymous"), emb,
             ⟨pyOrStr s.user_id "anonymous", pyOrStr s.video_id "unknown",
              s.title, s.tone, s.tags, s.key_points, o.nowIso,
              (pyOrStr s.transcript "").length, m.length⟩⟩) },
         { s with pinecone_id := some (o.md5hex (pyOrStr s.video_id "unknown"
             ++ "_" ++ pyOrStr s.user_id "anonymous")) }) := by
  unfold pinecone_store_node pineconeTry
  rw [hE, hU, hM]
  rfl

/-- Shape of a failing `neo4j_store_node` run: the world is untouched and the
error channel records `"neo4j_store"`. -/
theorem neo4j_failure_shape (o : Oracles) (w : World) (s : WorkflowState)
    (e : String) (h4 : o.neo4jOutcome = .error e) :
    neo4j_store_node o w s
      = (w, { s with error := some e, error_step := some "neo4j_store" }) := by
  unfold neo4j_store_node neo4jTry
  rw [h4]
  rfl

/-- Oracle bundle in which everything succeeds except the Neo4j store. -/
def oC3 : Oracles :=
  { oOk with neo4jOutcome := .error "neo4j connection refused" }

/-- Counterexample to C3 as stated: in a run where VectorStore succeeds and
GraphStore fails, the recorded step name is `"neo4j_store"` (nodes.py line
313), not the claimed `"graph_store"`. -/
theorem C3_counterexample :
    (run_workflow oC3 w0 "url" "vid" "tx" "uid" "professional").2.error_step
      = some "neo4j_store" ∧
    (some "neo4j_store" : Option String) ≠ some "graph_store" ∧
    (run_workflow oC3 w0 "url" "vid" "tx" "uid" "professional").2.pinecone_id
      = some "vid_uid" ∧
    (run_workflow oC3 w0 "url" "vid" "tx" "uid" "professional").2.neo4j_id
      = none := by
  refine ⟨by decide, by decide, by decide, by decide⟩

/-- C3 amended: if VectorStore succeeds and GraphStore then fails, the final
state has `pinecone_id` set, `neo4j_id` unset, `error_step` equal to the graph
step's name as the code spells it — `"neo4j_store"` — and the upserted vector
record is still present in the vector store (no compensation). -/
theorem C3_amended_vector_orphan (o : Oracles) (w : World)
    (url vid tx uid tone e m : String) (emb : List Int)
    (h0 : o.invokeRaises = none)
    (h1 : truthyStr
      (afterSummarize o (initialState url vid tx uid tone)).error = false)
    (h2 : truthyStr
      (afterClassify o (initialState url vid tx uid tone)).error = false)
    (hE : o.embedOutcome = .ok emb)
    (hU : o.upsertOutcome = .ok ())
    (hM : (afterClassify o (initialState url vid tx uid tone)).summary = some m)
    (h4 : o.neo4jOutcome = .error e)
    (he : e ≠ "") :
    (run_workflow o w url vid tx uid tone).2.pinecone_id.isSome = true ∧
    (run_workflow o w url vid tx uid tone).2.neo4j_id = none ∧
    (run_workflow o w url vid tx uid tone).2.error_step = some "neo4j_store" ∧
    (run_workflow o w url vid tx uid tone).2.error = some e ∧
    (∃ rec ∈ (run_workflow o w url vid tx uid tone).1.pinecone,
        some rec.id = (run_workflow o w url vid tx uid tone).2.pinecone_id) := by
  have hAPeq : afterPinecone o w (initialState url vid tx uid tone) = _ :=
    pinecone_success_shape o w
      (afterClassify o (initialState url vid tx uid tone)) emb m hE hU hM
  have g3 : truthyStr
      (afterPinecone o w (initialState url vid tx uid tone)).2.error = false := by
    rw [hAPeq]; exact h2
  have g4 : truthyStr
      (afterNeo4j o w (initialState url vid tx uid tone)).2.error = true := by
    rw [afterNeo4j_def, hAPeq, neo4j_failure_shape o _ _ _ h4]
    show truthyStr (some e) = true
    simp [truthyStr]
    exact he
  have hrw : run_workflow o w url vid tx uid tone
      = ((afterNeo4j o w (initialState url vid tx uid tone)).1,
         (afterNeo4j o w (initialState url vid tx uid tone)).2) := by
    simp [run_workflow, h0, runPipeline, h1, h2, g3, g4]
  have hnid :
      (afterClassify o (initialState url vid tx uid tone)).neo4j_id = none :=
    (classify_neo4j_id o
      (afterSummarize o (initialState url vid tx uid tone))).trans
      ((summarize_neo4j_id o (initialState url vid tx uid tone)).trans rfl)
  rw [hrw, afterNeo4j_def, hAPeq, neo4j_failure_shape o _ _ _ h4]
  exact ⟨rfl, hnid, rfl, rfl, ⟨_, mem_upsertVec w.pinecone _, rfl⟩⟩

/-- Witness for the amended C3 at the concrete failing-Neo4j oracle. -/
theorem C3_amended_vector_orphan_witness :
    truthyStr (afterSummarize oC3
        (initialState "url" "vid" "tx" "uid" "professional")).error = false ∧
    truthyStr (afterClassify oC3
        (initialState "url" "vid" "tx" "uid" "professional")).error = false ∧
    (afterClassify oC3
        (initialState "url" "vid" "tx" "uid" "professional")).summary
      = some "great video" ∧
    ((run_workflow oC3 w0 "url" "vid" "tx" "uid"
        "professional").2.pinecone_id.isSome = true ∧
      (run_workflow oC3 w0 "url" "vid" "tx" "uid"
        "professional").2.neo4j_id = none ∧
      (run_workflow oC3 w0 "url" "vid" "tx" "uid"
        "professional").2.error_step = some "neo4j_store" ∧
      (run_workflow oC3 w0 "url" "vid" "tx" "uid"
        "professional").2.error = some "neo4j connection refused" ∧
      (∃ rec ∈ (run_workflow oC3 w0 "url" "vid" "tx" "uid"
          "professional").1.pinecone,
        some rec.id = (run_workflow oC3 w0 "url" "vid" "tx" "uid"
          "professional").2.pinecone_id)) :=
  have h1 : truthyStr (afterSummarize oC3
      (initialState "url" "vid" "tx" "uid" "professional")).error = false := by
    decide
  have h2 : truthyStr (afterClassify oC3
      (initialState "url" "vid" "tx" "uid" "professional")).error = false := by
    decide
  have hM : (afterClassify oC3
      (initialState "url" "vid" "tx" "uid" "professional")).summary
      = some "great video" := by decide
  ⟨h1, h2, hM,
    C3_amended_vector_orphan oC3 w0 "url" "vid" "tx" "uid" "professional"
      "neo4j connection refused" "great video" [] rfl h1 h2 rfl rfl hM rfl
      (by decide)⟩

theorem insertIfAbsent_of_mem {l : List String} {x : String} (h : x ∈ l) :
    insertIfAbsent l x = l := by
  simp [insertIfAbsent, h]

theorem mem_insertIfAbsent (l : List String) (x : String) :
    x ∈ insertIfAbsent l x := by
  unfold insertIfAbsent
  split_ifs with h
  · exact h
  · simp

theorem mem_insertIfAbsent_of_mem {l : List String} {y : String} (x : String)
    (h : y ∈ l) : y ∈ insertIfAbsent l x := by
  unfold insertIfAbsent
  split_ifs
  · exact h
  · simp [h]

theorem mem_foldl_insert (xs : List String) (l : List String) {y : String}
    (h : y ∈ l) : y ∈ xs.foldl insertIfAbsent l := by
  induction xs generalizing l with
  | nil => exact h
  | cons a as ih => exact ih _ (mem_insertIfAbsent_of_mem a h)

theorem mem_foldl_insert_self (xs : List String) (l : List String) {x : String}
    (h : x ∈ xs) : x ∈ xs.foldl insertIfAbsent l := by
  induction xs generalizing l with
  | nil => cases h
  | cons a as ih =>
    rcases List.mem_cons.mp h with rfl | hx
    · exact mem_foldl_insert as _ (mem_insertIfAbsent l x)
    · exact ih _ hx

theorem foldl_insert_of_subset (xs : List String) (l : List String)
    (h : ∀ x ∈ xs, x ∈ l) : xs.foldl insertIfAbsent l = l := by
  induction xs with
  | nil => rfl
  | cons a as ih =>
    have ha : insertIfAbsent l a = l := insertIfAbsent_of_mem (h a (by simp))
    show as.foldl insertIfAbsent (insertIfAbsent l a) = l
    rw [ha]
    exact ih (fun x hx => h x (by simp [hx]))

theorem foldl_insert_idem (xs : List String) (l : List String) :
    xs.foldl insertIfAbsent (xs.foldl insertIfAbsent l)
      = xs.foldl insertIfAbsent l :=
  foldl_insert_of_subset xs _ (fun _ hx => mem_foldl_insert_self xs l hx)

theorem upsertAssoc_any (l : List (String × VideoProps)) (k : String)
    (v : VideoProps) : (upsertAssoc l k v).any (·.1 == k) = true := by
  unfold upsertAssoc
  split_ifs with h
  · obtain ⟨p, hp, hpe⟩ := List.any_eq_true.mp h
    refine List.any_eq_true.mpr ⟨(k, v), ?_, ?_⟩
    · exact List.mem_map.mpr ⟨p, hp, by simp [hpe]⟩
    · simp
  · simp

theorem upsertAssoc_keys (l : List (String × VideoProps)) (k : String)
    (v : VideoProps) (h : l.any (·.1 == k) = true) :
    (upsertAssoc l k v).map Prod.fst = l.map Prod.fst := by
  unfold upsertAssoc
  rw [if_pos h, List.map_map]
  refine List.map_congr_left ?_
  intro p hmem
  by_cases hk : (p.1 == k) = true
  · simp only [Function.comp_apply, if_pos hk]
    exact (eq_of_beq hk).symm
  · simp only [Function.comp_apply, if_neg hk]

/-- Counterexample to C4: running `store_summary` twice with the same inputs
(one subcategory, one tag, one key point) leaves two `KeyPoint` nodes where
one run leaves one — the `CREATE` for key points duplicates nodes on re-run,
so the merge is not idempotent on the node set. -/
theorem C4_counterexample :
    (Neo4jService.store_summary
        ⟨"v1", "u1", "T", "S", "Top", "Cat", 1, ["sub1"], ["tag1"], ["kp1"],
         "pro"⟩ 1
      (Neo4jService.store_summary
        ⟨"v1", "u1", "T", "S", "Top", "Cat", 1, ["sub1"], ["tag1"], ["kp1"],
         "pro"⟩ 0
        ⟨[], [], [], [], [], [], []⟩)).keyPoints = ["kp1", "kp1"] ∧
    (Neo4jService.store_summary
        ⟨"v1", "u1", "T", "S", "Top", "Cat", 1, ["sub1"], ["tag1"], ["kp1"],
         "pro"⟩ 0
        ⟨[], [], [], [], [], [], []⟩).keyPoints = ["kp1"] := by
  refine ⟨by decide, by decide⟩

/-- C4 amended: re-running `store_summary` with the same inputs creates no
duplicate of any `MERGE`-keyed node (Video, User, Topic, Category,
Subcategory, Tag) — but the key-point part uses `CREATE`, so the second run
appends the same batch of fresh `KeyPoint` nodes again (one per key point per
subcategory-tag row), duplicating them. -/
theorem C4_amended_idempotent_except_keypoints (inp : GraphInputs)
    (t t' : Nat) (db : GraphDB) :
    ((Neo4jService.store_summary inp t'
        (Neo4jService.store_summary inp t db)).videos.map Prod.fst
      = (Neo4jService.store_summary inp t db).videos.map Prod.fst) ∧
    (Neo4jService.store_summary inp t'
        (Neo4jService.store_summary inp t db)).users
      = (Neo4jService.store_summary inp t db).users ∧
    (Neo4jService.store_summary inp t'
        (Neo4jService.store_summary inp t db)).topics
      = (Neo4jService.store_summary inp t db).topics ∧
    (Neo4jService.store_summary inp t'
        (Neo4jService.store_summary inp t db)).categories
      = (Neo4jService.store_summary inp t db).categories ∧
    (Neo4jService.store_summary inp t'
        (Neo4jService.store_summary inp t db)).subcats
      = (Neo4jService.store_summary inp t db).subcats ∧
    (Neo4jService.store_summary inp t'
        (Neo4jService.store_summary inp t db)).tags
      = (Neo4jService.store_summary inp t db).tags ∧
    (Neo4jService.store_summary inp t'
        (Neo4jService.store_summary inp t db)).keyPoints
      = (Neo4jService.store_summary inp t db).keyPoints
        ++ repConcat (repConcat inp.subcategories inp.tags) inp.key_points := by
  unfold Neo4jService.store_summary
  refine ⟨?_, ?_, ?_, ?_, ?_, ?_, ?_⟩
  · exact upsertAssoc_keys _ _ _ (upsertAssoc_any db.videos inp.video_id _)
  · exact insertIfAbsent_of_mem (mem_insertIfAbsent db.users inp.user_id)
  · exact insertIfAbsent_of_mem (mem_insertIfAbsent db.topics inp.topic)
  · exact insertIfAbsent_of_mem (mem_insertIfAbsent db.categories inp.category)
  · exact foldl_insert_idem inp.subcategories db.subcats
  · exact foldl_insert_idem (repConcat inp.subcategories inp.tags) db.tags
  · simp only []

end YtsByAI
